import Mathlib

/-!
Verification of the admission-webhook and lifecycle-orchestrator core of the
monitoring operator (pkg/operator/admission.go, cmd/operator/main.go).

The Go code is shallowly embedded: pure functions become Lean functions,
fallible code returns Except, and a Go nil-pointer dereference (panic) is
modelled as Option.none.  Error values are modelled as their textual
description (a String), which is all the code ever inspects.
-/

namespace Operator

/-- Resource identity declared by an admission request
(metav1.GroupVersionResource, compared for value equality by Go `!=`). -/
structure GroupVersionResource where
  group : String
  version : String
  resource : String
deriving DecidableEq, Repr

/-- Rendering of a GroupVersionResource used inside error messages
(Go fmt `%v` of the struct; the exact layout is immaterial, it names
all three identity components). -/
def gvrString (r : GroupVersionResource) : String :=
  r.group ++ "/" ++ r.version ++ "/" ++ r.resource

/-- Modelled from the spec: `v1alpha1.PodMonitoringResource()` lives in the
resource package which is not part of the sources here; the spec describes it
as the pod-scoped monitoring resource identity. -/
def podMonitoringResource : GroupVersionResource :=
  { group := "monitoring.googleapis.com", version := "v1alpha1", resource := "podmonitorings" }

/-- Modelled from the spec: `v1alpha1.ServiceMonitoringResource()` is the
service-scoped monitoring resource identity. -/
def serviceMonitoringResource : GroupVersionResource :=
  { group := "monitoring.googleapis.com", version := "v1alpha1", resource := "servicemonitorings" }

/-- A label mapping rule: source label key and optional target label
(v1alpha1.LabelMapping: Go fields `From` and `To`; `from` is a Lean keyword,
hence the names). -/
structure LabelMapping where
  fromLabel : String
  toLabel : String
deriving DecidableEq, Repr

/-- Valid Prometheus label-name characters: letters, digits, underscore. -/
def labelNameChar (c : Char) : Bool :=
  c.isAlpha || c.isDigit || c = '_'

/-- Modelled from the spec: whether a single label mapping rule compiles into
a valid relabeling configuration (spec: "every rule must compile into a valid
relabeling configuration; a rule that cannot (e.g., malformed key) is
rejected").  The target label (the `To` field, defaulting to `From` when
empty) must be a well-formed, non-empty label name. -/
def ruleValid (m : LabelMapping) : Bool :=
  let target := if m.toLabel = "" then m.fromLabel else m.toLabel
  target ≠ "" && target.toList.all labelNameChar && !(target.toList.headD '_').isDigit

/-- A compiled relabeling configuration produced for one valid rule. -/
structure RelabelConfig where
  sourceLabel : String
  targetLabel : String
deriving DecidableEq, Repr

/-- Error text reported for a rule that does not compile. -/
def ruleErrorMsg (m : LabelMapping) : String :=
  "invalid label mapping from " ++ m.fromLabel ++ " to " ++ m.toLabel

/-- Modelled from the spec: compiling one rule against a source-label
namespace base; fails exactly on the invalid rules, reporting which rule. -/
def compileRule (base : String) (m : LabelMapping) : Except String RelabelConfig :=
  if ruleValid m then
    .ok { sourceLabel := base ++ m.fromLabel
        , targetLabel := if m.toLabel = "" then m.fromLabel else m.toLabel }
  else
    .error (ruleErrorMsg m)

/-- Modelled from the spec: `labelMappingRelabelConfigs` (not under the given
sources; only its callers are).  Per the spec it validates every rule of the
set in declaration order, failing fast on the first invalid rule and
reporting which rule and why. -/
def labelMappingRelabelConfigs (ms : List LabelMapping) (base : String) :
    Except String (List RelabelConfig) :=
  match ms with
  | [] => .ok []
  | m :: rest =>
    match compileRule base m with
    | .error e => .error e
    | .ok cfg =>
      match labelMappingRelabelConfigs rest base with
      | .error e => .error e
      | .ok cfgs => .ok (cfg :: cfgs)

/-- Modelled from the spec: the pod-sourced label namespace base
(`podLabelPrefix` in the operator package, not under the given sources). -/
def podLabelBase : String := "__meta_kubernetes_pod_label_"

/-- Modelled from the spec: the service-sourced label namespace base
(`serviceLabelPrefix` in the operator package). -/
def serviceLabelBase : String := "__meta_kubernetes_service_label_"

/-- Target-label section of a monitoring resource spec: pod-sourced and
service-sourced label mapping rules (the pod-scoped variant only uses
`fromPod`). -/
structure TargetLabels where
  fromPod : List LabelMapping
  fromService : List LabelMapping
deriving Repr

/-- Spec of the pod-scoped monitoring resource. -/
structure PodMonitoringSpec where
  targetLabels : TargetLabels
deriving Repr

/-- Pod-scoped monitoring resource (v1alpha1.PodMonitoring). -/
structure PodMonitoring where
  spec : PodMonitoringSpec
deriving Repr

/-- Service-scoped monitoring resource (v1alpha1.ServiceMonitoring). -/
structure ServiceMonitoring where
  spec : PodMonitoringSpec
deriving Repr

/-- The raw serialized payload of an admission request, modelled by the
outcomes of the two deserialization attempts the validators can make on it
(`json.Unmarshal` into PodMonitoring resp. ServiceMonitoring); an `.error`
carries the unmarshalling error text. -/
structure RawObject where
  asPodMonitoring : Except String PodMonitoring
  asServiceMonitoring : Except String ServiceMonitoring

/-- Nested resource admission request (v1.AdmissionRequest): correlation UID,
declared resource identity, raw payload. -/
structure AdmissionRequest where
  uid : String
  resource : GroupVersionResource
  object : RawObject

/-- Status carried by a denial (metav1.Status). -/
structure Status where
  status : String
  message : String
deriving DecidableEq, Repr

/-- metav1.StatusFailure. -/
def statusFailure : String := "Failure"

/-- Admission decision (v1.AdmissionResponse): allowed flag, echoed UID and
optional failure result. -/
structure AdmissionResponse where
  uid : String
  allowed : Bool
  result : Option Status
deriving DecidableEq, Repr

/-- The admission review envelope (v1.AdmissionReview), used both for the
incoming request and the outgoing response; the Go zero value has empty
strings and nil pointers. -/
structure AdmissionReview where
  apiVersion : String
  kind : String
  request : Option AdmissionRequest
  response : Option AdmissionResponse

/-- toAdmissionResponse: an AdmissionResponse denying the request with the
message of the provided error. -/
def toAdmissionResponse (err : String) : AdmissionResponse :=
  { uid := ""
  , allowed := false
  , result := some { status := statusFailure, message := err } }

/-- admitPodMonitoring.  A Go nil-pointer dereference of `ar.Request`
(when the envelope has no nested request) is modelled as `none`; a normal
return of `(resp, err)` is `some` of `.ok resp` or `.error err`. -/
def admitPodMonitoring (ar : AdmissionReview) :
    Option (Except String AdmissionResponse) :=
  match ar.request with
  | none => none
  | some req =>
    some (
      if req.resource ≠ podMonitoringResource then
        .error ("expected resource to be " ++ gvrString podMonitoringResource
          ++ ", but received " ++ gvrString req.resource)
      else
        match req.object.asPodMonitoring with
        | .error e => .error ("unmarshalling admission request to podmonitoring: " ++ e)
        | .ok pm =>
          match labelMappingRelabelConfigs pm.spec.targetLabels.fromPod podLabelBase with
          | .error e => .error ("checking label mappings: " ++ e)
          | .ok _ => .ok { uid := "", allowed := true, result := none })

/-- admitServiceMonitoring, analogous to admitPodMonitoring but additionally
validating the service-sourced rules after the pod-sourced ones. -/
def admitServiceMonitoring (ar : AdmissionReview) :
    Option (Except String AdmissionResponse) :=
  match ar.request with
  | none => none
  | some req =>
    some (
      if req.resource ≠ serviceMonitoringResource then
        .error ("expected resource to be " ++ gvrString serviceMonitoringResource
          ++ ", but received " ++ gvrString req.resource)
      else
        match req.object.asServiceMonitoring with
        | .error e => .error ("unmarshalling admission request to servicemonitoring: " ++ e)
        | .ok sm =>
          match labelMappingRelabelConfigs sm.spec.targetLabels.fromPod podLabelBase with
          | .error e => .error ("checking pod label mappings: " ++ e)
          | .ok _ =>
            match labelMappingRelabelConfigs sm.spec.targetLabels.fromService serviceLabelBase with
            | .error e => .error ("checking service label mappings: " ++ e)
            | .ok _ => .ok { uid := "", allowed := true, result := none })

/-- The incoming HTTP request body as the handler observes it: the body read
fails, or the read bytes fail to decode into an AdmissionReview, or they
decode into one (ReadAll and the schema-aware decoder are external
collaborators; only their outcome classification is visible to the core). -/
inductive Body where
  | unreadable (err : String)
  | undecodable (err : String)
  | decoded (req : AdmissionReview)

/-- serveAdmission: the admission review the handler writes as the HTTP
response body; `none` when the bound validator panics (nil dereference), in
which case no response is produced.  `req` and `resp` start as Go zero
values; the identity echo happens exactly when the decoded request's nested
request pointer is non-nil. -/
def serveAdmission (adm : AdmissionReview → Option (Except String AdmissionResponse))
    (body : Body) : Option AdmissionReview :=
  match body with
  | .unreadable err =>
    some { apiVersion := "", kind := "", request := none
         , response := some (toAdmissionResponse err) }
  | .undecodable err =>
    some { apiVersion := "", kind := "", request := none
         , response := some (toAdmissionResponse err) }
  | .decoded req =>
    match adm req with
    | none => none
    | some outcome =>
      let r : AdmissionResponse :=
        match outcome with
        | .error err => toAdmissionResponse err
        | .ok ar => ar
      match req.request with
      | none =>
        some { apiVersion := "", kind := "", request := none, response := some r }
      | some nested =>
        some { apiVersion := req.apiVersion, kind := req.kind, request := none
             , response := some { r with uid := nested.uid } }

/-- The valid values of the `--log-level` flag. -/
def logLevelDebug : String := "debug"

/-- Log level "info". -/
def logLevelInfo : String := "info"

/-- Log level "warn". -/
def logLevelWarn : String := "warn"

/-- Log level "error". -/
def logLevelError : String := "error"

/-- validLogLevels, in declaration order. -/
def validLogLevels : List String :=
  [logLevelDebug, logLevelInfo, logLevelWarn, logLevelError]

/-- The leveled filter a configured logger applies. -/
inductive LogFilter where
  | allowDebug
  | allowInfo
  | allowWarn
  | allowError
deriving DecidableEq, Repr

/-- The observable configuration of the logger setupLogger builds (the go-kit
logger value itself is an external collaborator; the level filter is the
only configuration the level argument decides). -/
structure Logger where
  filter : LogFilter
deriving DecidableEq, Repr

/-- setupLogger: dispatches on the level string, rejecting anything outside
validLogLevels with an error naming the level and listing the valid ones. -/
def setupLogger (lvl : String) : Except String Logger :=
  if lvl = logLevelDebug then .ok { filter := .allowDebug }
  else if lvl = logLevelInfo then .ok { filter := .allowInfo }
  else if lvl = logLevelWarn then .ok { filter := .allowWarn }
  else if lvl = logLevelError then .ok { filter := .allowError }
  else .error ("log level \"" ++ lvl ++ "\" unknown, must be one of ("
    ++ String.intercalate ", " validLogLevels ++ ")")

/-- The first rule of a rule set, in declaration order, that does not
compile into a valid relabeling configuration. -/
def firstInvalid (ms : List LabelMapping) : Option LabelMapping :=
  ms.find? (fun m => !ruleValid m)

/-- The error message admitServiceMonitoring reports for the rule sets of a
service-scoped resource, as a function of the resource alone: the pod-sourced
rules are checked first, so the first invalid rule in declaration order
determines the message; `none` when every rule is valid. -/
def serviceMappingError (sm : ServiceMonitoring) : Option String :=
  match firstInvalid sm.spec.targetLabels.fromPod with
  | some m => some ("checking pod label mappings: " ++ ruleErrorMsg m)
  | none =>
    match firstInvalid sm.spec.targetLabels.fromService with
    | some m => some ("checking service label mappings: " ++ ruleErrorMsg m)
    | none => none

/-- An observable event of one orchestrator run: actor `i`'s execute
operation returning outcome `e`, or actor `i`'s interrupt operation being
invoked with triggering error `e` (`none` = clean exit / nil error). -/
inductive RunEvent where
  | finish (i : Nat) (e : Option String)
  | interrupt (i : Nat) (e : Option String)
deriving DecidableEq, Repr

/-- Modelled from the spec: the actor lifecycle orchestrator (`run.Group`
used by main) is an external module whose code is not under the given
sources.  Actors are modelled by the outcome their execute operation
eventually returns (`none` = clean exit); `order` is the order in which the
concurrently running execute operations happen to return.  Per the spec, the
instant the first one returns the orchestrator invokes the interrupt
operation of every other actor, passing the triggering error, and all later
returns are discarded. -/
def runGroupTrace (execResults : List (Option String)) (order : List Nat) :
    List RunEvent :=
  match order with
  | [] => []
  | f :: rest =>
    RunEvent.finish f (execResults.getD f none)
      :: ((List.range execResults.length).filter (fun i => i != f)).map
          (fun i => RunEvent.interrupt i (execResults.getD f none))
      ++ rest.map (fun i => RunEvent.finish i (execResults.getD i none))

/-- Modelled from the spec: the orchestrator's overall result is the value
returned by the first actor to terminate (nil for an empty group). -/
def runGroupResult (execResults : List (Option String)) (order : List Nat) :
    Option String :=
  match order with
  | [] => none
  | f :: _ => execResults.getD f none

/-- The list of triggering errors actor `i`'s interrupt operation received
during a run, in order. -/
def interruptsTo (tr : List RunEvent) (i : Nat) : List (Option String) :=
  tr.filterMap (fun ev =>
    match ev with
    | RunEvent.interrupt j e => if j = i then some e else none
    | RunEvent.finish _ _ => none)

/-- A concrete valid label mapping rule. -/
def sampleRule : LabelMapping := { fromLabel := "app", toLabel := "" }

/-- A concrete invalid label mapping rule (target label starts with a
digit). -/
def sampleBadRule : LabelMapping := { fromLabel := "team", toLabel := "9bad" }

/-- A concrete pod-scoped monitoring resource with one valid rule. -/
def samplePM : PodMonitoring :=
  { spec := { targetLabels := { fromPod := [sampleRule], fromService := [] } } }

/-- A concrete pod-scoped monitoring resource whose second rule is
invalid. -/
def sampleBadPM : PodMonitoring :=
  { spec := { targetLabels := { fromPod := [sampleRule, sampleBadRule], fromService := [] } } }

/-- A concrete service-scoped monitoring resource with valid pod-sourced
rules and an invalid service-sourced rule. -/
def sampleSM : ServiceMonitoring :=
  { spec := { targetLabels := { fromPod := [sampleRule], fromService := [sampleBadRule] } } }

/-- A payload deserializing to samplePM as a PodMonitoring. -/
def samplePodObject : RawObject :=
  { asPodMonitoring := .ok samplePM
  , asServiceMonitoring := .error "no ServiceMonitoring" }

/-- A payload deserializing to sampleBadPM as a PodMonitoring. -/
def sampleBadPodObject : RawObject :=
  { asPodMonitoring := .ok sampleBadPM
  , asServiceMonitoring := .error "no ServiceMonitoring" }

/-- A payload deserializing to sampleSM as a ServiceMonitoring. -/
def sampleServiceObject : RawObject :=
  { asPodMonitoring := .error "no PodMonitoring"
  , asServiceMonitoring := .ok sampleSM }

/-- A concrete nested admission request. -/
def sampleRequest (res : GroupVersionResource) (obj : RawObject) : AdmissionRequest :=
  { uid := "4f5d6e7a-aaaa-bbbb-cccc-0123456789ab", resource := res, object := obj }

/-- A concrete incoming admission review envelope. -/
def sampleReview (res : GroupVersionResource) (obj : RawObject) : AdmissionReview :=
  { apiVersion := "admission.k8s.io/v1", kind := "AdmissionReview"
  , request := some (sampleRequest res obj), response := none }

/-- A rule set whose rules are all valid compiles without error. -/
theorem lmrc_ok_of_valid (ms : List LabelMapping) (base : String)
    (h : ∀ m ∈ ms, ruleValid m = true) :
    ∃ cfgs, labelMappingRelabelConfigs ms base = .ok cfgs := by
  induction ms with
  | nil => exact ⟨[], rfl⟩
  | cons m rest ih =>
    have hm : ruleValid m = true := h m (List.mem_cons_self _ _)
    obtain ⟨cfgs, hc⟩ := ih (fun x hx => h x (List.mem_cons_of_mem _ hx))
    simp only [labelMappingRelabelConfigs, compileRule, hm, if_true, hc]
    exact ⟨_, rfl⟩

/-- Compilation of a rule set fails with the error of the first invalid rule
in declaration order, whatever the namespace base. -/
theorem lmrc_error_of_firstInvalid (ms : List LabelMapping) (base : String)
    (m : LabelMapping) (h : firstInvalid ms = some m) :
    labelMappingRelabelConfigs ms base = .error (ruleErrorMsg m) := by
  induction ms with
  | nil => simp [firstInvalid] at h
  | cons a rest ih =>
    by_cases ha : ruleValid a = true
    · have hrest : firstInvalid rest = some m := by
        simpa [firstInvalid, List.find?, ha] using h
      have := ih hrest
      simp only [labelMappingRelabelConfigs, compileRule, ha, if_true, this]
    · have hm : a = m := by
        have : (!ruleValid a) = true := by
          simp [Bool.eq_false_iff.mpr ha]
        simpa [firstInvalid, List.find?, this] using h
      subst hm
      simp [labelMappingRelabelConfigs, compileRule, ha]

/-- A rule set with no first invalid rule consists of valid rules only. -/
theorem valid_of_firstInvalid_none (ms : List LabelMapping)
    (h : firstInvalid ms = none) : ∀ m ∈ ms, ruleValid m = true := by
  intro m hm
  have := List.find?_eq_none.mp h m hm
  simpa using this

/-- The first invalid rule of concatenated rule sets is the first invalid
rule of the first set, else of the second. -/
theorem firstInvalid_append (l₁ l₂ : List LabelMapping) :
    firstInvalid (l₁ ++ l₂) = (firstInvalid l₁).or (firstInvalid l₂) := by
  simp [firstInvalid, List.find?_append]

/-- A rule set containing an invalid rule has a first invalid rule. -/
theorem firstInvalid_isSome_of_invalid (ms : List LabelMapping)
    (h : ∃ m ∈ ms, ruleValid m = false) :
    ∃ m, firstInvalid ms = some m := by
  obtain ⟨m, hmem, hbad⟩ := h
  have : (ms.find? (fun x => !ruleValid x)).isSome = true := by
    rw [List.find?_isSome]
    exact ⟨m, hmem, by simp [hbad]⟩
  obtain ⟨m', hm'⟩ := Option.isSome_iff_exists.mp this
  exact ⟨m', hm'⟩

/-- On a duplicate-free list containing `i`, keeping only the entry equal to
`i` yields exactly one element. -/
theorem filterMap_if_eq_single {α : Type} (l : List Nat) (i : Nat) (e : α)
    (hnd : l.Nodup) (hi : i ∈ l) :
    l.filterMap (fun j => if j = i then some e else none) = [e] := by
  induction l with
  | nil => cases hi
  | cons a t ih =>
    rcases List.mem_cons.mp hi with h | h
    · subst h
      have hnot : i ∉ t := (List.nodup_cons.mp hnd).1
      have hall : ∀ j ∈ t, (if j = i then some e else none) = none := by
        intro j hj
        have hji : j ≠ i := fun hji => hnot (hji ▸ hj)
        simp [hji]
      simp [List.filterMap_cons, List.filterMap_eq_nil_iff.mpr hall]
    · have hne : a ≠ i := by
        intro hai
        exact (List.nodup_cons.mp hnd).1 (hai ▸ h)
      simp [List.filterMap_cons, hne, ih (List.nodup_cons.mp hnd).2 h]

/-- C1: for every incoming admission request whose body was successfully
decoded into an admission review envelope (with its nested request present),
the response envelope carries the request's apiVersion, kind, and request
UID unchanged, for every outcome of the subsequent validation (allowed,
denied, or validator error). -/
theorem serveAdmission_echoes_identity
    (adm : AdmissionReview → Option (Except String AdmissionResponse))
    (req : AdmissionReview) (nested : AdmissionRequest)
    (outcome : Except String AdmissionResponse)
    (hreq : req.request = some nested)
    (hadm : adm req = some outcome) :
    ∃ resp, serveAdmission adm (.decoded req) = some resp ∧
      resp.apiVersion = req.apiVersion ∧ resp.kind = req.kind ∧
      ∃ r, resp.response = some r ∧ r.uid = nested.uid := by
  simp only [serveAdmission, hadm, hreq]
  exact ⟨_, rfl, rfl, rfl, _, rfl, rfl⟩

/-- C1 witness: the identity echo at a concrete allowed request. -/
theorem serveAdmission_echoes_identity_witness :
    ∃ resp, serveAdmission (fun _ => some (.ok { uid := "", allowed := true, result := none }))
        (.decoded (sampleReview podMonitoringResource samplePodObject)) = some resp ∧
      resp.apiVersion = (sampleReview podMonitoringResource samplePodObject).apiVersion ∧
      resp.kind = (sampleReview podMonitoringResource samplePodObject).kind ∧
      ∃ r, resp.response = some r ∧
        r.uid = (sampleRequest podMonitoringResource samplePodObject).uid :=
  serveAdmission_echoes_identity
    (fun _ => some (.ok { uid := "", allowed := true, result := none }))
    (sampleReview podMonitoringResource samplePodObject)
    (sampleRequest podMonitoringResource samplePodObject)
    (.ok { uid := "", allowed := true, result := none }) rfl rfl

/-- C2: a declared resource identity differing from the validator's expected
identity makes admitPodMonitoring / admitServiceMonitoring fail with an
error naming both identities, and the raw payload is never deserialized
(the outcome is independent of the payload). -/
theorem admit_kind_mismatch (av k uid : String) (res : GroupVersionResource)
    (obj obj' : RawObject) :
    (res ≠ podMonitoringResource →
      admitPodMonitoring ⟨av, k, some ⟨uid, res, obj⟩, none⟩ =
        some (.error ("expected resource to be " ++ gvrString podMonitoringResource
          ++ ", but received " ++ gvrString res)) ∧
      admitPodMonitoring ⟨av, k, some ⟨uid, res, obj⟩, none⟩ =
        admitPodMonitoring ⟨av, k, some ⟨uid, res, obj'⟩, none⟩) ∧
    (res ≠ serviceMonitoringResource →
      admitServiceMonitoring ⟨av, k, some ⟨uid, res, obj⟩, none⟩ =
        some (.error ("expected resource to be " ++ gvrString serviceMonitoringResource
          ++ ", but received " ++ gvrString res)) ∧
      admitServiceMonitoring ⟨av, k, some ⟨uid, res, obj⟩, none⟩ =
        admitServiceMonitoring ⟨av, k, some ⟨uid, res, obj'⟩, none⟩) := by
  constructor
  · intro hpod
    exact ⟨by simp [admitPodMonitoring, hpod], by simp [admitPodMonitoring, hpod]⟩
  · intro hsvc
    exact ⟨by simp [admitServiceMonitoring, hsvc], by simp [admitServiceMonitoring, hsvc]⟩

/-- C2 witness: cross misrouting in both directions — a service-scoped
identity sent to the pod validator and a pod-scoped identity sent to the
service validator are each rejected with the error naming both
identities. -/
theorem admit_kind_mismatch_witness :
    admitPodMonitoring ⟨"admission.k8s.io/v1", "AdmissionReview",
        some ⟨"u0", serviceMonitoringResource, sampleServiceObject⟩, none⟩ =
      some (.error ("expected resource to be " ++ gvrString podMonitoringResource
        ++ ", but received " ++ gvrString serviceMonitoringResource)) ∧
    admitServiceMonitoring ⟨"admission.k8s.io/v1", "AdmissionReview",
        some ⟨"u0", podMonitoringResource, samplePodObject⟩, none⟩ =
      some (.error ("expected resource to be " ++ gvrString serviceMonitoringResource
        ++ ", but received " ++ gvrString podMonitoringResource)) :=
  ⟨((admit_kind_mismatch "admission.k8s.io/v1" "AdmissionReview" "u0"
      serviceMonitoringResource sampleServiceObject samplePodObject).1 (by decide)).1,
    ((admit_kind_mismatch "admission.k8s.io/v1" "AdmissionReview" "u0"
      podMonitoringResource samplePodObject sampleServiceObject).2 (by decide)).1⟩

/-- C3: a service-scoped resource whose pod-sourced rules are all valid but
that has an invalid service-sourced rule still fails admitServiceMonitoring:
service-side validation is not skipped. -/
theorem admitServiceMonitoring_checks_service_rules
    (av k uid : String) (obj : RawObject) (sm : ServiceMonitoring)
    (hdec : obj.asServiceMonitoring = .ok sm)
    (hpodok : ∀ m ∈ sm.spec.targetLabels.fromPod, ruleValid m = true)
    (hbad : ∃ m ∈ sm.spec.targetLabels.fromService, ruleValid m = false) :
    ∃ e, admitServiceMonitoring ⟨av, k, some ⟨uid, serviceMonitoringResource, obj⟩, none⟩ =
      some (.error e) := by
  obtain ⟨cfgs, hok⟩ := lmrc_ok_of_valid _ podLabelBase hpodok
  obtain ⟨m, hm⟩ := firstInvalid_isSome_of_invalid _ hbad
  have herr := lmrc_error_of_firstInvalid _ serviceLabelBase m hm
  exact ⟨"checking service label mappings: " ++ ruleErrorMsg m,
    by simp [admitServiceMonitoring, hdec, hok, herr]⟩

/-- C3 witness: a concrete service-scoped resource with a valid pod-sourced
rule and an invalid service-sourced rule is denied. -/
theorem admitServiceMonitoring_checks_service_rules_witness :
    ∃ e, admitServiceMonitoring ⟨"admission.k8s.io/v1", "AdmissionReview",
        some ⟨"u1", serviceMonitoringResource, sampleServiceObject⟩, none⟩ =
      some (.error e) :=
  admitServiceMonitoring_checks_service_rules "admission.k8s.io/v1" "AdmissionReview"
    "u1" sampleServiceObject sampleSM rfl (by decide) (by decide)

/-- C5: the decision mapper turns every error into a denial whose status is
the failure marker and whose message is the error's text. -/
theorem toAdmissionResponse_denies (err : String) :
    (toAdmissionResponse err).allowed = false ∧
    (toAdmissionResponse err).result =
      some { status := statusFailure, message := err } :=
  ⟨rfl, rfl⟩

/-- C6: a pod-scoped review with matching identity, a payload deserializing
into a PodMonitoring, and all pod-sourced rules valid is allowed with no
result payload and no error. -/
theorem admitPodMonitoring_allows_valid (av k uid : String) (obj : RawObject)
    (pm : PodMonitoring) (hdec : obj.asPodMonitoring = .ok pm)
    (hvalid : ∀ m ∈ pm.spec.targetLabels.fromPod, ruleValid m = true) :
    admitPodMonitoring ⟨av, k, some ⟨uid, podMonitoringResource, obj⟩, none⟩ =
      some (.ok { uid := "", allowed := true, result := none }) := by
  obtain ⟨cfgs, hok⟩ := lmrc_ok_of_valid _ podLabelBase hvalid
  simp [admitPodMonitoring, hdec, hok]

/-- C6 witness: a concrete well-formed pod-scoped resource is allowed. -/
theorem admitPodMonitoring_allows_valid_witness :
    admitPodMonitoring ⟨"admission.k8s.io/v1", "AdmissionReview",
        some ⟨"u2", podMonitoringResource, samplePodObject⟩, none⟩ =
      some (.ok { uid := "", allowed := true, result := none }) :=
  admitPodMonitoring_allows_valid "admission.k8s.io/v1" "AdmissionReview" "u2"
    samplePodObject samplePM rfl (by decide)

/-- C7: a resource with at least one invalid label-mapping rule is rejected
by its validator, the error content is determined by the first invalid rule
in declaration order (for the service-scoped variant the pod-sourced rules
precede the service-sourced ones), and re-validating the identical input
yields the identical outcome for both validators. -/
theorem validator_first_invalid_deterministic (av k uid : String)
    (obj objS : RawObject) (pm : PodMonitoring) (sm : ServiceMonitoring)
    (hdec : obj.asPodMonitoring = .ok pm)
    (hdecS : objS.asServiceMonitoring = .ok sm)
    (hbad : ∃ m ∈ pm.spec.targetLabels.fromPod, ruleValid m = false)
    (hbadS : ∃ m ∈ sm.spec.targetLabels.fromPod ++ sm.spec.targetLabels.fromService,
      ruleValid m = false) :
    (∃ m, firstInvalid pm.spec.targetLabels.fromPod = some m ∧
      admitPodMonitoring ⟨av, k, some ⟨uid, podMonitoringResource, obj⟩, none⟩ =
        some (.error ("checking label mappings: " ++ ruleErrorMsg m)) ∧
      ∀ base, labelMappingRelabelConfigs pm.spec.targetLabels.fromPod base =
        .error (ruleErrorMsg m)) ∧
    (∃ m, firstInvalid
        (sm.spec.targetLabels.fromPod ++ sm.spec.targetLabels.fromService) = some m ∧
      ∃ e, serviceMappingError sm = some e ∧
        admitServiceMonitoring ⟨av, k, some ⟨uid, serviceMonitoringResource, objS⟩, none⟩ =
          some (.error e) ∧
        (e = "checking pod label mappings: " ++ ruleErrorMsg m ∨
          e = "checking service label mappings: " ++ ruleErrorMsg m)) ∧
    admitPodMonitoring ⟨av, k, some ⟨uid, podMonitoringResource, obj⟩, none⟩ =
      admitPodMonitoring ⟨av, k, some ⟨uid, podMonitoringResource, obj⟩, none⟩ ∧
    admitServiceMonitoring ⟨av, k, some ⟨uid, serviceMonitoringResource, objS⟩, none⟩ =
      admitServiceMonitoring ⟨av, k, some ⟨uid, serviceMonitoringResource, objS⟩, none⟩ := by
  refine ⟨?_, ?_, rfl, rfl⟩
  · obtain ⟨m, hm⟩ := firstInvalid_isSome_of_invalid _ hbad
    have herr := lmrc_error_of_firstInvalid _ podLabelBase m hm
    exact ⟨m, hm, by simp [admitPodMonitoring, hdec, herr],
      fun base => lmrc_error_of_firstInvalid _ base m hm⟩
  · cases hfp : firstInvalid sm.spec.targetLabels.fromPod with
    | some m =>
      have herr := lmrc_error_of_firstInvalid _ podLabelBase m hfp
      refine ⟨m, ?_, "checking pod label mappings: " ++ ruleErrorMsg m,
        ?_, ?_, Or.inl rfl⟩
      · rw [firstInvalid_append, hfp, Option.or_some]
      · simp [serviceMappingError, hfp]
      · simp [admitServiceMonitoring, hdecS, herr]
    | none =>
      have hvalid := valid_of_firstInvalid_none _ hfp
      obtain ⟨cfgs, hok⟩ := lmrc_ok_of_valid _ podLabelBase hvalid
      have hbadsvc : ∃ m ∈ sm.spec.targetLabels.fromService, ruleValid m = false := by
        obtain ⟨m, hmem, hfalse⟩ := hbadS
        rcases List.mem_append.mp hmem with h | h
        · exact absurd (hvalid m h) (by simp [hfalse])
        · exact ⟨m, h, hfalse⟩
      obtain ⟨m, hm⟩ := firstInvalid_isSome_of_invalid _ hbadsvc
      have herr := lmrc_error_of_firstInvalid _ serviceLabelBase m hm
      refine ⟨m, ?_, "checking service label mappings: " ++ ruleErrorMsg m,
        ?_, ?_, Or.inr rfl⟩
      · rw [firstInvalid_append, hfp, Option.none_or]
        exact hm
      · simp [serviceMappingError, hfp, hm]
      · simp [admitServiceMonitoring, hdecS, hok, herr]

/-- C7 witness: a pod-scoped resource whose second rule is the first invalid
one, and a service-scoped resource whose first invalid rule in declaration
order is service-sourced. -/
theorem validator_first_invalid_deterministic_witness :
    (∃ m, firstInvalid sampleBadPM.spec.targetLabels.fromPod = some m ∧
      admitPodMonitoring ⟨"admission.k8s.io/v1", "AdmissionReview",
          some ⟨"u3", podMonitoringResource, sampleBadPodObject⟩, none⟩ =
        some (.error ("checking label mappings: " ++ ruleErrorMsg m)) ∧
      ∀ base, labelMappingRelabelConfigs sampleBadPM.spec.targetLabels.fromPod base =
        .error (ruleErrorMsg m)) ∧
    (∃ m, firstInvalid
        (sampleSM.spec.targetLabels.fromPod ++ sampleSM.spec.targetLabels.fromService) =
          some m ∧
      ∃ e, serviceMappingError sampleSM = some e ∧
        admitServiceMonitoring ⟨"admission.k8s.io/v1", "AdmissionReview",
            some ⟨"u3", serviceMonitoringResource, sampleServiceObject⟩, none⟩ =
          some (.error e) ∧
        (e = "checking pod label mappings: " ++ ruleErrorMsg m ∨
          e = "checking service label mappings: " ++ ruleErrorMsg m)) :=
  ⟨(validator_first_invalid_deterministic "admission.k8s.io/v1" "AdmissionReview"
      "u3" sampleBadPodObject sampleServiceObject sampleBadPM sampleSM rfl rfl
      (by decide) (by decide)).1,
    (validator_first_invalid_deterministic "admission.k8s.io/v1" "AdmissionReview"
      "u3" sampleBadPodObject sampleServiceObject sampleBadPM sampleSM rfl rfl
      (by decide) (by decide)).2.1⟩

/-- C8: a request body that fails to decode never reaches the validator (the
written response is one fixed value, whatever validator is bound) and the
denial response carries no echoed UID, kind, or API version. -/
theorem serveAdmission_decode_failure_bare
    (adm adm' : AdmissionReview → Option (Except String AdmissionResponse))
    (err : String) :
    serveAdmission adm (.undecodable err) =
      some { apiVersion := "", kind := "", request := none
           , response := some (toAdmissionResponse err) } ∧
    serveAdmission adm (.undecodable err) = serveAdmission adm' (.undecodable err) ∧
    (toAdmissionResponse err).allowed = false ∧
    (toAdmissionResponse err).uid = "" :=
  ⟨rfl, rfl, rfl, rfl⟩

/-- C9: an envelope that decodes with an absent nested request is passed to
the validator anyway (the handler conditions only the identity echo on its
presence), and both validators dereference it and crash rather than return
an error; no response is produced. -/
theorem admit_nil_request_crash (ar : AdmissionReview)
    (hnil : ar.request = none) :
    admitPodMonitoring ar = none ∧ admitServiceMonitoring ar = none ∧
    serveAdmission admitPodMonitoring (.decoded ar) = none ∧
    serveAdmission admitServiceMonitoring (.decoded ar) = none := by
  have hp : admitPodMonitoring ar = none := by simp [admitPodMonitoring, hnil]
  have hs : admitServiceMonitoring ar = none := by simp [admitServiceMonitoring, hnil]
  exact ⟨hp, hs, by simp [serveAdmission, hp], by simp [serveAdmission, hs]⟩

/-- C9 witness: a concrete envelope with no nested request crashes both
validators. -/
theorem admit_nil_request_crash_witness :
    admitPodMonitoring ⟨"admission.k8s.io/v1", "AdmissionReview", none, none⟩ = none ∧
    admitServiceMonitoring ⟨"admission.k8s.io/v1", "AdmissionReview", none, none⟩ = none ∧
    serveAdmission admitPodMonitoring
      (.decoded ⟨"admission.k8s.io/v1", "AdmissionReview", none, none⟩) = none ∧
    serveAdmission admitServiceMonitoring
      (.decoded ⟨"admission.k8s.io/v1", "AdmissionReview", none, none⟩) = none :=
  admit_nil_request_crash ⟨"admission.k8s.io/v1", "AdmissionReview", none, none⟩ rfl

/-- C10: setupLogger succeeds exactly on the four valid levels; any other
string yields an error naming the rejected level and listing the valid
levels. -/
theorem setupLogger_levels (lvl : String) :
    ((∃ l, setupLogger lvl = .ok l) ↔ lvl ∈ validLogLevels) ∧
    (lvl ∉ validLogLevels →
      setupLogger lvl = .error ("log level \"" ++ lvl
        ++ "\" unknown, must be one of ("
        ++ String.intercalate ", " validLogLevels ++ ")")) := by
  by_cases h1 : lvl = logLevelDebug
  · subst h1
    simp [setupLogger, validLogLevels]
  by_cases h2 : lvl = logLevelInfo
  · subst h2
    simp [setupLogger, validLogLevels, logLevelDebug, logLevelInfo]
  by_cases h3 : lvl = logLevelWarn
  · subst h3
    simp [setupLogger, validLogLevels, logLevelDebug, logLevelInfo, logLevelWarn]
  by_cases h4 : lvl = logLevelError
  · subst h4
    simp [setupLogger, validLogLevels, logLevelDebug, logLevelInfo, logLevelWarn,
      logLevelError]
  · simp [setupLogger, validLogLevels, h1, h2, h3, h4]

/-- C10 witness: "info" is accepted and "verbose" is rejected with the
listing error. -/
theorem setupLogger_levels_witness :
    (∃ l, setupLogger "info" = .ok l) ∧
    setupLogger "verbose" = .error ("log level \"" ++ "verbose"
      ++ "\" unknown, must be one of ("
      ++ String.intercalate ", " validLogLevels ++ ")") :=
  ⟨(setupLogger_levels "info").1.mpr (by decide),
    (setupLogger_levels "verbose").2 (by decide)⟩

/-- C4: the moment the first actor's execute operation returns, every other
actor's interrupt operation is invoked exactly once with the triggering
error (nil on a clean exit), and the orchestrator's overall result is the
first actor's return value. -/
theorem runGroup_interrupts_others (execResults : List (Option String))
    (f : Nat) (rest : List Nat) (i : Nat)
    (hi : i < execResults.length) (hne : i ≠ f) :
    interruptsTo (runGroupTrace execResults (f :: rest)) i =
      [execResults.getD f none] ∧
    runGroupResult execResults (f :: rest) = execResults.getD f none := by
  refine ⟨?_, rfl⟩
  have hnd : ((List.range execResults.length).filter (fun j => j != f)).Nodup :=
    (List.nodup_range _).filter _
  have hmem : i ∈ (List.range execResults.length).filter (fun j => j != f) := by
    simp [List.mem_filter, List.mem_range, hi, hne]
  simp only [runGroupTrace, interruptsTo, List.filterMap_cons, List.filterMap_append,
    List.filterMap_map]
  have hfin : List.filterMap
      ((fun ev => match ev with
        | RunEvent.interrupt j e => if j = i then some e else none
        | RunEvent.finish _ _ => none)
        ∘ (fun j => RunEvent.finish j (execResults.getD j none))) rest = [] :=
    List.filterMap_eq_nil_iff.mpr (fun a _ => rfl)
  rw [hfin, List.append_nil]
  exact filterMap_if_eq_single _ i (execResults.getD f none) hnd hmem

/-- C4 witness: actor 0 fails with error E; actors 1 and 2 are each
interrupted exactly once with E, and the overall result is E. -/
theorem runGroup_interrupts_others_witness :
    interruptsTo (runGroupTrace [some "E", none, none] [0, 1, 2]) 1 =
      [([some "E", none, none] : List (Option String)).getD 0 none] ∧
    runGroupResult [some "E", none, none] [0, 1, 2] =
      ([some "E", none, none] : List (Option String)).getD 0 none :=
  runGroup_interrupts_others [some "E", none, none] 0 [1, 2] 1
    (by decide) (by decide)

end Operator
